import Mathlib

/-!
Verification development for the BounceRunner multiplayer endless-runner.

Shallow embedding conventions:
* TypeScript numbers are modelled as rationals (ℚ); all client physics
  constants are exact decimals, so ℚ arithmetic reproduces the source exactly
  on exact inputs.
* In-place mutation is modelled by explicit state passing: functions return
  the updated record instead of mutating it.
* Math.random() draws are modelled by an injected stream of rationals in
  [0, 1) together with an index of the next unconsumed draw; each function
  that draws randomness threads the index through and returns it.
* Date.now() and uuidv4() are modelled as explicit parameters, respectively a
  fresh-counter field, since the claims never depend on their actual values.

Client side follows src/components/BounceRunner/BounceRunner.tsx (which
inlines utils/gameLogic.ts and utils/constants.ts); server side follows
src/server/TrackGenerator.ts, the GameLoop, the SessionManager and the
socket tick loop.
-/

namespace BounceRunner

/-! ## Client data model (types.ts / constants.ts) -/

/-- Collectible item kinds; the client only ever creates coins. -/
inductive ItemKind
  | coin
deriving DecidableEq, Repr

/-- A collectible item on a platform (types.ts Item). -/
structure Item where
  id : ℚ
  x : ℚ
  y : ℚ
  type : ItemKind
  collected : Bool
deriving DecidableEq, Repr

/-- Collision event kind (gameLogic.ts checkItemCollisions events). -/
inductive EventKind
  | bonus
  | penalty
deriving DecidableEq, Repr

/-- A score event produced by collision resolution. -/
structure GameEvent where
  type : EventKind
  scoreDelta : ℚ
deriving DecidableEq, Repr

/-- Platform types of constants.ts PLATFORM_TYPES. -/
inductive PlatformType
  | default
  | green
  | rare
  | hazard
deriving DecidableEq, Repr

/-- One generated platform (types.ts Platform). -/
structure Platform where
  x : ℚ
  y : ℚ
  width : ℚ
  height : ℚ
  id : ℚ
  type : PlatformType
  items : List Item
deriving DecidableEq, Repr

/-- One point of the cosmetic trail history (types.ts TrailPoint). -/
structure TrailPoint where
  x : ℚ
  y : ℚ
  vy : ℚ
  age : ℚ
deriving DecidableEq, Repr

/-- The client-side runner state (types.ts Player). -/
structure Player where
  x : ℚ
  y : ℚ
  width : ℚ
  height : ℚ
  vx : ℚ
  vy : ℚ
  isJumping : Bool
  isGrounded : Bool
  jumpCount : ℕ
  jumpHoldTimer : ℚ
  trailHistory : List TrailPoint
  canDoubleJump : Bool
  isDashing : Bool
  dashCooldown : ℚ
  comboCount : ℕ
  lastLandTime : ℚ
deriving DecidableEq, Repr

/-! ## Client constants (constants.ts) -/

def GRAVITY : ℚ := 8 / 10

def JUMP_FORCE : ℚ := -14

def DOUBLE_JUMP_FORCE : ℚ := -12

def JUMP_ADDITIONAL_FORCE : ℚ := -3 / 10

def MAX_JUMP_FRAMES : ℚ := 8

def MAX_JUMPS : ℕ := 2

def DASH_COOLDOWN : ℚ := 60

def INITIAL_SPEED : ℚ := 12

def CANVAS_HEIGHT : ℚ := 720

def PLAYER_WIDTH : ℚ := 40

def PLAYER_HEIGHT : ℚ := 40

/-! ## Client physics (gameLogic.ts updatePlayer)

updatePlayer is split into one definition per source statement group, in
source order; updatePlayer composes them. -/

/-- Maximum fall speed, a local constant of updatePlayer. -/
def maxFallSpeed : ℚ := 15

/-- First statement of updatePlayer: decrement the dash cooldown while it is
positive (no floor is applied in the source). -/
def dashCooldownStep (timeFactor : ℚ) (p : Player) : Player :=
  if 0 < p.dashCooldown then
    { p with dashCooldown := p.dashCooldown - timeFactor }
  else p

/-- Variable jump height: while the jump button is held and the hold timer is
positive, add the hold force and decrement the timer, else zero the timer. -/
def jumpHoldStep (isHoldingJump : Bool) (timeFactor : ℚ) (p : Player) : Player :=
  if isHoldingJump ∧ 0 < p.jumpHoldTimer then
    { p with vy := p.vy + JUMP_ADDITIONAL_FORCE * timeFactor,
             jumpHoldTimer := p.jumpHoldTimer - timeFactor }
  else { p with jumpHoldTimer := 0 }

/-- Gravity accumulation followed by the fall-speed clamp. -/
def gravityStep (timeFactor : ℚ) (p : Player) : Player :=
  let p2 := { p with vy := p.vy + GRAVITY * timeFactor }
  if maxFallSpeed < p2.vy then { p2 with vy := maxFallSpeed } else p2

/-- Position integration: y by vertical velocity, x by the auto-run speed. -/
def integrateStep (currentSpeed timeFactor : ℚ) (p : Player) : Player :=
  { p with y := p.y + p.vy * timeFactor, x := p.x + currentSpeed * timeFactor }

/-- Cosmetic trail bookkeeping: push a point when the last recorded x is more
than 8 units away, and drop the oldest point beyond 60 entries. -/
def updateTrail (p : Player) : Player :=
  let doPush : Bool :=
    match p.trailHistory.getLast? with
    | none => true
    | some tp => decide (8 < |tp.x - p.x|)
  if doPush then
    let hist := p.trailHistory ++ [{ x := p.x, y := p.y, vy := p.vy, age := 0 }]
    let hist2 := if 60 < hist.length then hist.drop 1 else hist
    { p with trailHistory := hist2 }
  else p

/-- The landing scan of updatePlayer: iterate the platforms in order and
return the first one the runner lands on this frame. prevBottom is computed
from the pre-step player, exactly as in the source. -/
def landingCheck (player np : Player) (timeFactor : ℚ) : List Platform → Option Platform
  | [] => none
  | platform :: rest =>
    if 0 ≤ np.vy then
      let prevBottom := player.y + player.height
      if np.x + np.width > platform.x + 10 ∧ np.x < platform.x + platform.width - 10 then
        let velocityTolerance := |np.vy| * timeFactor + 8
        if np.y + np.height ≥ platform.y ∧ prevBottom ≤ platform.y + velocityTolerance then
          some platform
        else landingCheck player np timeFactor rest
      else landingCheck player np timeFactor rest
    else landingCheck player np timeFactor rest

/-- The state written on a successful landing; now stands for Date.now(). -/
def landPlayer (p : Player) (platform : Platform) (now : ℚ) : Player :=
  { p with y := platform.y - p.height, vy := 0, isGrounded := true,
           isJumping := false, jumpHoldTimer := 0, jumpCount := 0,
           canDoubleJump := true, lastLandTime := now }

/-- Result of one updatePlayer call. -/
structure UpdateResult where
  updatedPlayer : Player
  landedPlatform : Option Platform
deriving DecidableEq, Repr

/-- The statements of updatePlayer before the landing loop, in source
order: cooldown decrement, jump-hold force, gravity and clamp, position
integration, trail bookkeeping and the isGrounded reset. -/
def prePhysics (baseSpeed speedMultiplier : ℚ) (isHoldingJump : Bool)
    (timeFactor : ℚ) (player : Player) : Player :=
  let currentSpeed := baseSpeed * speedMultiplier
  let np := dashCooldownStep timeFactor player
  let np := jumpHoldStep isHoldingJump timeFactor np
  let np := gravityStep timeFactor np
  let np := integrateStep currentSpeed timeFactor np
  let np := updateTrail np
  { np with isGrounded := false }

/-- gameLogic.ts updatePlayer: one physics step of the runner.  The source
defaults timeFactor to 1; now stands for Date.now(). -/
def updatePlayer (player : Player) (platforms : List Platform)
    (baseSpeed speedMultiplier : ℚ) (isHoldingJump : Bool)
    (timeFactor now : ℚ) : UpdateResult :=
  let np := prePhysics baseSpeed speedMultiplier isHoldingJump timeFactor player
  match landingCheck player np timeFactor platforms with
  | some platform =>
    { updatedPlayer := landPlayer np platform now, landedPlatform := some platform }
  | none => { updatedPlayer := np, landedPlatform := none }

/-- One step of the per-frame loop restricted to the player field. -/
def stepPlayer (platforms : List Platform) (baseSpeed speedMultiplier : ℚ)
    (isHoldingJump : Bool) (timeFactor now : ℚ) (p : Player) : Player :=
  (updatePlayer p platforms baseSpeed speedMultiplier isHoldingJump timeFactor now).updatedPlayer

/-- Iterated physics steps with fixed inputs. -/
def iterPlayer (platforms : List Platform) (baseSpeed speedMultiplier : ℚ)
    (isHoldingJump : Bool) (timeFactor now : ℚ) : ℕ → Player → Player
  | 0, p => p
  | n + 1, p =>
    iterPlayer platforms baseSpeed speedMultiplier isHoldingJump timeFactor now n
      (stepPlayer platforms baseSpeed speedMultiplier isHoldingJump timeFactor now p)

/-! ## Client input handlers (BounceRunner.tsx) -/

/-- handleJumpStart restricted to the runner state; isRunning is the
gameState.isRunning guard.  Cosmetic particles and floating texts are
outside the data model. -/
def handleJumpStart (isRunning : Bool) (p : Player) : Player :=
  if !isRunning then p
  else if p.isGrounded then
    { p with vy := JUMP_FORCE, isGrounded := false, isJumping := true,
             jumpHoldTimer := MAX_JUMP_FRAMES, jumpCount := 1, canDoubleJump := true }
  else if !p.isGrounded ∧ p.canDoubleJump ∧ p.jumpCount < MAX_JUMPS then
    { p with vy := DOUBLE_JUMP_FORCE, isJumping := true,
             jumpHoldTimer := MAX_JUMP_FRAMES, jumpCount := 2, canDoubleJump := false }
  else p

/-- handleDash restricted to the runner state.  The 150 ms timeout that
clears isDashing again is a detached timer outside this step function. -/
def handleDash (isRunning : Bool) (p : Player) : Player :=
  if !isRunning then p
  else if 0 < p.dashCooldown then p
  else { p with isDashing := true, dashCooldown := DASH_COOLDOWN }

/-! ## Item collisions (gameLogic.ts checkItemCollisions) -/

/-- The axis-aligned overlap test of checkItemCollisions (itemSize = 20). -/
def itemOverlap (player : Player) (item : Item) : Bool :=
  decide (player.x + player.width > item.x ∧ player.x < item.x + 20 ∧
    player.y + player.height > item.y ∧ player.y < item.y + 20)

/-- Processing of a single item: skip if already collected, otherwise on
overlap mark it collected and emit the coin bonus event. -/
def itemCollide (player : Player) (item : Item) : List GameEvent × Item :=
  if item.collected then ([], item)
  else if itemOverlap player item then
    let item2 := { item with collected := true }
    if item.type = ItemKind.coin then
      ([{ type := EventKind.bonus, scoreDelta := 50 }], item2)
    else ([], item2)
  else ([], item)

/-- The inner forEach over one platform's items. -/
def collideItems (player : Player) : List Item → List GameEvent × List Item
  | [] => ([], [])
  | item :: rest =>
    let r := itemCollide player item
    let rr := collideItems player rest
    (r.1 ++ rr.1, r.2 :: rr.2)

/-- gameLogic.ts checkItemCollisions: the outer forEach over platforms; the
in-place item mutation is returned as an updated platform list. -/
def checkItemCollisions (player : Player) : List Platform → List GameEvent × List Platform
  | [] => ([], [])
  | pf :: rest =>
    let r := collideItems player pf.items
    let rr := checkItemCollisions player rest
    (r.1 ++ rr.1, { pf with items := r.2 } :: rr.2)

/-- The trajectory of a single item through a sequence of collision-resolution
calls (one entry per call, with that call's player state). -/
def runItem : Item → List Player → List GameEvent × Item
  | item, [] => ([], item)
  | item, pl :: rest =>
    let r := itemCollide pl item
    let rr := runItem r.2 rest
    (r.1 ++ rr.1, rr.2)

/-! ## Server shared data model (src/server/shared/types.ts) -/

/-- Segment types of the server track. -/
inductive SegmentType
  | plain
  | gap
  | obstacle
  | mystery
deriving DecidableEq, Repr

/-- Obstacle subtypes. -/
inductive ObstacleType
  | static
  | lowCeiling
  | moving
  | laser
deriving DecidableEq, Repr

/-- Kind-specific obstacle parameters (all optional in the source). -/
structure ObstacleParams where
  amplitude : Option ℚ
  speed : Option ℚ
  activeDuration : Option ℚ
  inactiveDuration : Option ℚ
  offset : Option ℚ
deriving DecidableEq, Repr

/-- Empty parameter record (the TS literal with no fields). -/
def noParams : ObstacleParams :=
  { amplitude := none, speed := none, activeDuration := none,
    inactiveDuration := none, offset := none }

/-- An obstacle placed on a segment. -/
structure Obstacle where
  kind : ObstacleType
  x : ℚ
  y : ℚ
  width : ℚ
  height : ℚ
  params : ObstacleParams
deriving DecidableEq, Repr

/-- Mystery segment subtypes. -/
inductive MysteryType
  | credit
  | speedBoost
  | fakeSafe
deriving DecidableEq, Repr

/-- One unit of server-generated track.  The uuidv4 string id is determinized
to a fresh natural-number counter (the claims never inspect id contents,
only distinctness). -/
structure TrackSegment where
  id : ℕ
  startX : ℚ
  width : ℚ
  height : ℚ
  type : SegmentType
  obstacle : Option Obstacle
  mysteryType : Option MysteryType
deriving DecidableEq, Repr

/-- Server-side runner state. -/
structure PlayerState where
  id : String
  username : String
  x : ℚ
  y : ℚ
  vx : ℚ
  vy : ℚ
  isGrounded : Bool
  isJumping : Bool
  alive : Bool
  distance : ℚ
  credits : ℚ
  themeId : String
deriving DecidableEq, Repr

/-- Session lifecycle status. -/
inductive SessionStatus
  | waiting
  | live
deriving DecidableEq, Repr

/-- A bounded group of runners sharing one world. -/
structure Session where
  id : String
  players : List PlayerState
  status : SessionStatus
  startTime : ℚ
deriving DecidableEq, Repr

/-! ## Injected randomness

Math.random() returns values in [0, 1).  A RandStream packages an infinite
stream of such draws; functions consume them left to right through an
explicit index, mirroring the source's call order. -/

/-- A stream of Math.random() draws. -/
structure RandStream where
  f : ℕ → ℚ
  nonneg : ∀ n, 0 ≤ f n
  lt_one : ∀ n, f n < 1

/-! ## Server track generator (src/server/TrackGenerator.ts) -/

def MIN_GAP : ℚ := 150

def MAX_GAP : ℚ := 350

def MIN_WIDTH : ℚ := 200

def MAX_WIDTH : ℚ := 600

/-- Mutable fields of the TrackGenerator class, plus the determinized uuid
counter. -/
structure GenState where
  lastSegment : TrackSegment
  difficultyMultiplier : ℚ
  nextId : ℕ
deriving DecidableEq, Repr

/-- Constructor state: the initial starting platform. -/
def initialGenState : GenState :=
  { lastSegment :=
      { id := 0, startX := -50, width := 1500, height := 600,
        type := SegmentType.plain, obstacle := none, mysteryType := none },
    difficultyMultiplier := 1,
    nextId := 1 }

/-- types[Math.floor(Math.random() * 4)] of generateObstacle. -/
def obstacleKindOfIndex (n : ℕ) : ObstacleType :=
  match n with
  | 0 => ObstacleType.static
  | 1 => ObstacleType.lowCeiling
  | 2 => ObstacleType.moving
  | _ => ObstacleType.laser

/-- TrackGenerator.generateObstacle.  Consumes two draws, three for laser. -/
def generateObstacle (platformX platformW platformY : ℚ) (rs : RandStream)
    (i : ℕ) : Obstacle × ℕ :=
  let kind := obstacleKindOfIndex (Int.floor (rs.f i * 4)).toNat
  let relativeX := 50 + rs.f (i + 1) * (platformW - 100)
  let x := platformX + relativeX
  match kind with
  | ObstacleType.lowCeiling =>
    ({ kind := kind, x := x, y := platformY - 150, width := 40, height := 40,
       params := noParams }, i + 2)
  | ObstacleType.moving =>
    ({ kind := kind, x := x, y := platformY - 40, width := 40, height := 40,
       params := { noParams with amplitude := some 100, speed := some 2 } }, i + 2)
  | ObstacleType.laser =>
    let ps :=
      { noParams with
        activeDuration := some 60
        inactiveDuration := some 60
        offset := some (rs.f (i + 2) * 100) }
    ({ kind := kind, x := x, y := platformY - 40, width := 40, height := 40,
       params := ps }, i + 3)
  | ObstacleType.static =>
    ({ kind := kind, x := x, y := platformY - 40, width := 40, height := 40,
       params := noParams }, i + 2)

/-- TrackGenerator.generatePlatformAt: width and type draw, optional mystery
subtype or obstacle, and the lastSegment update. -/
def generatePlatformAt (g : GenState) (startX : ℚ) (rs : RandStream)
    (i : ℕ) : TrackSegment × GenState × ℕ :=
  let width := MIN_WIDTH + rs.f i * (MAX_WIDTH - MIN_WIDTH)
  let height : ℚ := 620
  let roll := rs.f (i + 1)
  let (type, obstacle, mysteryType, i2) :
      SegmentType × Option Obstacle × Option MysteryType × ℕ :=
    if roll < 1 / 10 then
      let mRoll := rs.f (i + 2)
      let m :=
        if mRoll < 4 / 10 then MysteryType.credit
        else if mRoll < 7 / 10 then MysteryType.speedBoost
        else MysteryType.fakeSafe
      (SegmentType.mystery, none, some m, i + 3)
    else if roll < 4 / 10 then
      let r := generateObstacle startX width height rs (i + 2)
      (SegmentType.obstacle, some r.1, none, r.2)
    else (SegmentType.plain, none, none, i + 2)
  let segment : TrackSegment :=
    { id := g.nextId, startX := startX, width := width, height := height,
      type := type, obstacle := obstacle, mysteryType := mysteryType }
  (segment, { g with lastSegment := segment, nextId := g.nextId + 1 }, i2)

/-- TrackGenerator.generateGap: draw the gap size (scaled by the stored
difficulty multiplier) and place the next platform after it. -/
def generateGap (g : GenState) (rs : RandStream) (i : ℕ) :
    TrackSegment × GenState × ℕ :=
  let gapSize := MIN_GAP + rs.f i * (MAX_GAP - MIN_GAP) * g.difficultyMultiplier
  let startX := g.lastSegment.startX + g.lastSegment.width + gapSize
  generatePlatformAt g startX rs (i + 1)

/-- TrackGenerator.generatePlatform simply delegates to generateGap. -/
def generatePlatformSeg (g : GenState) (rs : RandStream) (i : ℕ) :
    TrackSegment × GenState × ℕ :=
  generateGap g rs i

/-- TrackGenerator.generateNextSegment: store the difficulty, draw the
(unused either way) isGap branch, and generate. -/
def generateNextSegment (g : GenState) (difficulty : ℚ) (rs : RandStream)
    (i : ℕ) : TrackSegment × GenState × ℕ :=
  let g2 := { g with difficultyMultiplier := difficulty }
  let isGap := rs.f i < 3 / 10
  if isGap then generateGap g2 rs (i + 1) else generatePlatformSeg g2 rs (i + 1)

/-! ## Server game loop (GameLoop) -/

/-- End of the last stored segment, or the -50 start used when none exists
(GameLoop.generateTrackForSession's currentX initialization). -/
def frontierOf (segs : List TrackSegment) : ℚ :=
  match segs.getLast? with
  | some l => l.startX + l.width
  | none => -50

/-- End of the generator's own last segment. -/
def lastEnd (g : GenState) : ℚ :=
  g.lastSegment.startX + g.lastSegment.width

/-- The loop variables of generateTrackForSession's while loop. -/
structure GenLoopResult where
  segments : List TrackSegment
  newSegments : List TrackSegment
  genState : GenState
  nextRand : ℕ
  currentX : ℚ
deriving Repr

/-- The while loop of generateTrackForSession, with fuel making termination
explicit (any fuel of at least (targetX - currentX) / 350 steps suffices,
as proved below). -/
def genLoop (g : GenState) (segs newSegs : List TrackSegment)
    (currentX targetX : ℚ) (rs : RandStream) (i : ℕ) : ℕ → GenLoopResult
  | 0 =>
    { segments := segs, newSegments := newSegs, genState := g,
      nextRand := i, currentX := currentX }
  | fuel + 1 =>
    if currentX < targetX then
      let r := generateNextSegment g (1 + currentX / 10000) rs i
      genLoop r.2.1 (segs ++ [r.1]) (newSegs ++ [r.1])
        (r.1.startX + r.1.width) targetX rs r.2.2 fuel
    else
      { segments := segs, newSegments := newSegs, genState := g,
        nextRand := i, currentX := currentX }

/-- Result of one generateTrackForSession call for one session. -/
structure TrackGenResult where
  newSegments : List TrackSegment
  storedSegments : List TrackSegment
  genState : GenState
  nextRand : ℕ
deriving Repr

/-- GameLoop.generateTrackForSession for a single session: lazily create the
generator, compute the 2000-px-ahead target from the leader distance
(meters, 100 px each), and extend the stored segment list until the frontier
reaches the target, returning only the newly created segments. -/
def generateTrackForSession (genOpt : Option GenState)
    (storedSegs : List TrackSegment) (maxDistance : ℚ) (rs : RandStream)
    (i : ℕ) (fuel : ℕ) : TrackGenResult :=
  let g := genOpt.getD initialGenState
  let targetX := maxDistance * 100 + 2000
  let currentX := frontierOf storedSegs
  let r := genLoop g storedSegs [] currentX targetX rs i fuel
  { newSegments := r.newSegments, storedSegments := r.segments,
    genState := r.genState, nextRand := r.nextRand }

/-- The tick loop emits a track_update message only when new segments were
generated (setInterval body in the server entry point). -/
def emitTrackUpdate (newSegs : List TrackSegment) : Option (List TrackSegment) :=
  if newSegs.length > 0 then some newSegs else none

/-- The AABB obstacle test of GameLoop.update (40 = PLAYER_WIDTH = HEIGHT). -/
def obstacleHit (p : PlayerState) (obs : Obstacle) : Bool :=
  decide (p.x < obs.x + obs.width ∧ p.x + 40 > obs.x ∧
    p.y < obs.y + obs.height ∧ p.y + 40 > obs.y)

/-- Segments near the player, as filtered by GameLoop.update. -/
def relevantSegments (segs : List TrackSegment) (p : PlayerState) :
    List TrackSegment :=
  segs.filter (fun s => decide (s.startX < p.x + 100 ∧ s.startX + s.width > p.x - 100))

/-- Whether any nearby segment's obstacle overlaps the player. -/
def hitsObstacle (segs : List TrackSegment) (p : PlayerState) : Bool :=
  (relevantSegments segs p).any fun s =>
    match s.obstacle with
    | some obs => obstacleHit p obs
    | none => false

/-- Per-player body of GameLoop.update: skip dead players, eliminate on
falling below y = 800, else eliminate on obstacle contact. -/
def eliminationStep (segs : List TrackSegment) (p : PlayerState) : PlayerState :=
  if !p.alive then p
  else if 800 < p.y then { p with alive := false }
  else if hitsObstacle segs p then { p with alive := false }
  else p

/-- GameLoop.update restricted to one session: live sessions run the
elimination step on every player, others are skipped. -/
def gameLoopUpdateSession (segs : List TrackSegment) (s : Session) : Session :=
  if s.status = SessionStatus.live then
    { s with players := s.players.map (eliminationStep segs) }
  else s

/-! ## Session manager (SessionManager) -/

def MAX_PLAYERS : ℕ := 10

/-- The SessionManager's two maps, as insertion-ordered association lists. -/
structure SessionManagerState where
  sessions : List Session
  playerSessionMap : List (String × String)
deriving DecidableEq, Repr

/-- session.players.filter(p => p.alive).length of findOrCreateSession. -/
def aliveCount (s : Session) : ℕ :=
  (s.players.filter fun p => p.alive).length

/-- SessionManager.createSession; freshId determinizes uuidv4, now stands
for Date.now(). -/
def createSession (m : SessionManagerState) (freshId : String) (now : ℚ) :
    Session × SessionManagerState :=
  let s : Session :=
    { id := freshId, players := [], status := SessionStatus.live, startTime := now }
  (s, { m with sessions := m.sessions ++ [s] })

/-- SessionManager.findOrCreateSession: first live session with alive count
below capacity, else a fresh session. -/
def findOrCreateSession (m : SessionManagerState) (freshId : String) (now : ℚ) :
    Session × SessionManagerState :=
  match m.sessions.find? (fun s =>
      decide (s.status = SessionStatus.live ∧ aliveCount s < MAX_PLAYERS)) with
  | some s => (s, m)
  | none => createSession m freshId now

/-- The fresh PlayerState allocated by joinSession.  The random username is
an explicit parameter. -/
def newPlayerState (socketId username : String) : PlayerState :=
  { id := socketId, username := username, x := 0, y := 0, vx := 0, vy := 0,
    isGrounded := true, isJumping := false, alive := true, distance := 0,
    credits := 0, themeId := "white" }

/-- Replace the first session carrying the given id (models mutating the
object found in the Map). -/
def replaceFirstSession (sid : String) (snew : Session) :
    List Session → List Session
  | [] => []
  | s :: rest =>
    if s.id = sid then snew :: rest else s :: replaceFirstSession sid snew rest

/-- Map.set on the association list. -/
def mapSet (l : List (String × String)) (k v : String) : List (String × String) :=
  if l.any (fun kv => kv.1 = k) then
    l.map fun kv => if kv.1 = k then (k, v) else kv
  else l ++ [(k, v)]

/-- SessionManager.flattenSession: pick or create a session, allocate the
runner, record the player-to-session mapping. -/
def joinSession (m : SessionManagerState) (socketId username freshId : String)
    (now : ℚ) : Session × PlayerState × SessionManagerState :=
  let r := findOrCreateSession m freshId now
  let player := newPlayerState socketId username
  let session2 := { r.1 with players := r.1.players ++ [player] }
  (session2, player,
    { sessions := replaceFirstSession r.1.id session2 r.2.sessions,
      playerSessionMap := mapSet r.2.playerSessionMap socketId r.1.id })

/-- Association-list lookup (Map.get). -/
def lookupStr (l : List (String × String)) (k : String) : Option String :=
  (l.find? fun kv => kv.1 = k).map fun kv => kv.2

/-- SessionManager.getSession. -/
def getSession (m : SessionManagerState) (sid : String) : Option Session :=
  m.sessions.find? fun s => decide (s.id = sid)

/-- SessionManager.getPlayerSession. -/
def getPlayerSession (m : SessionManagerState) (socketId : String) :
    Option Session :=
  match lookupStr m.playerSessionMap socketId with
  | none => none
  | some sid => getSession m sid

/-- The update_position payload. -/
structure PositionData where
  x : ℚ
  y : ℚ
  vx : ℚ
  vy : ℚ
  isGrounded : Bool
deriving DecidableEq, Repr

/-- The field writes of updatePlayerPosition on a found, living player. -/
def applyPosition (p : PlayerState) (d : PositionData) : PlayerState :=
  { p with x := d.x, y := d.y, vx := d.vx, vy := d.vy,
           isGrounded := d.isGrounded,
           distance := max p.distance (d.x / 100) }

/-- players.find(p => p.id === socketId) followed by the guarded in-place
mutation: only the first player with the id is touched, and only if alive. -/
def updateFirstAlive (socketId : String) (d : PositionData) :
    List PlayerState → List PlayerState
  | [] => []
  | p :: rest =>
    if p.id = socketId then
      (if p.alive then applyPosition p d else p) :: rest
    else p :: updateFirstAlive socketId d rest

/-- SessionManager.updatePlayerPosition. -/
def updatePlayerPosition (m : SessionManagerState) (socketId : String)
    (d : PositionData) : SessionManagerState :=
  match getPlayerSession m socketId with
  | none => m
  | some session =>
    let session2 := { session with players := updateFirstAlive socketId d session.players }
    { m with sessions := replaceFirstSession session.id session2 m.sessions }

/-- A whole sequence of update_position calls. -/
def applyPositionUpdates (m : SessionManagerState)
    (ds : List (String × PositionData)) : SessionManagerState :=
  ds.foldl (fun acc sd => updatePlayerPosition acc sd.1 sd.2) m

/-- The player record the update_position handler operates on: the session
mapped for the socket, then the first player in it with the socket id. -/
def findPlayerIn (m : SessionManagerState) (socketId : String) :
    Option PlayerState :=
  match getPlayerSession m socketId with
  | none => none
  | some s => s.players.find? fun p => decide (p.id = socketId)

/-! ## Specification predicates -/

/-- Same player, distance not decreased. -/
def PlayerMono (p q : PlayerState) : Prop :=
  p.id = q.id ∧ p.distance ≤ q.distance

/-- Same session, player list pointwise monotone. -/
def SessionMono (s t : Session) : Prop :=
  s.id = t.id ∧ List.Forall₂ PlayerMono s.players t.players

/-- Registry-wide distance monotonicity. -/
def ManagerMono (m m2 : SessionManagerState) : Prop :=
  List.Forall₂ SessionMono m.sessions m2.sessions

/-- What one run of the track-generation while loop guarantees: it appends
some delta of fresh segments to both lists, its final currentX is the new
frontier, and given enough fuel the frontier reaches the target. -/
def GenLoopSpec (targetX : ℚ) (g : GenState) (segs newSegs : List TrackSegment)
    (currentX : ℚ) (fuel : ℕ) (r : GenLoopResult) : Prop :=
  ∃ delta : List TrackSegment,
    r.segments = segs ++ delta ∧
    r.newSegments = newSegs ++ delta ∧
    (∀ s ∈ delta, g.nextId ≤ s.id) ∧
    r.currentX = frontierOf r.segments ∧
    currentX ≤ r.currentX ∧
    (targetX - currentX ≤ 350 * fuel → targetX ≤ r.currentX)

/-! ## Concrete inputs used by witnesses and counterexamples -/

/-- A freshly initialized grounded runner (initGame's player). -/
def basePlayer : Player :=
  { x := 0, y := 580, width := 40, height := 40, vx := 0, vy := 0,
    isJumping := false, isGrounded := true, jumpCount := 0, jumpHoldTimer := 0,
    trailHistory := [], canDoubleJump := true, isDashing := false,
    dashCooldown := 0, comboCount := 0, lastLandTime := 0 }

/-- The runner of the landing scenario: x=0, y=594, vy=5, airborne. -/
def pC3 : Player :=
  { basePlayer with y := 594, vy := 5, isGrounded := false, jumpCount := 1 }

/-- The platform of the landing scenario: top at y=620, spanning the runner. -/
def plC3 : Platform :=
  { x := -50, y := 620, width := 1500, height := 26, id := 0,
    type := PlatformType.default, items := [] }

/-- A constant Math.random() stream of 1/2. -/
def rsHalf : RandStream :=
  { f := fun _ => 1 / 2, nonneg := fun _ => by norm_num,
    lt_one := fun _ => by norm_num }

/-- A constant Math.random() stream of 9/10. -/
def rsNine : RandStream :=
  { f := fun _ => 9 / 10, nonneg := fun _ => by norm_num,
    lt_one := fun _ => by norm_num }

/-- A living server runner standing at (100, 560), well above y = 800. -/
def pHit : PlayerState :=
  { id := "p1", username := "u1", x := 100, y := 560, vx := 0, vy := 0,
    isGrounded := true, isJumping := false, alive := true, distance := 1,
    credits := 0, themeId := "white" }

/-- An obstacle overlapping pHit. -/
def obsHit : Obstacle :=
  { kind := ObstacleType.static, x := 110, y := 580, width := 40, height := 40,
    params := noParams }

/-- A segment near pHit carrying obsHit. -/
def segObs : TrackSegment :=
  { id := 1, startX := 0, width := 600, height := 620,
    type := SegmentType.obstacle, obstacle := some obsHit, mysteryType := none }

/-- A live session holding only pHit. -/
def sHit : Session :=
  { id := "s1", players := [pHit], status := SessionStatus.live, startTime := 0 }

/-- A living joiner used to fill a session to capacity. -/
def pAlive : PlayerState :=
  { id := "q1", username := "q1", x := 0, y := 0, vx := 0, vy := 0,
    isGrounded := true, isJumping := false, alive := true, distance := 0,
    credits := 0, themeId := "white" }

/-- A live session already holding MAX_PLAYERS living runners. -/
def fullSession : Session :=
  { id := "sFull", players := List.replicate 10 pAlive,
    status := SessionStatus.live, startTime := 0 }

/-- A registry whose only session is full. -/
def mFull : SessionManagerState :=
  { sessions := [fullSession], playerSessionMap := [] }

def freshId1 : String := "sNew"

def sock1 : String := "sock1"

def uname1 : String := "RapidFalcon1"

/-- A runner positioned over wItem. -/
def wPlayer : Player := basePlayer

/-- An uncollected coin overlapping wPlayer. -/
def wItem : Item :=
  { id := 0, x := 10, y := 590, type := ItemKind.coin, collected := false }

/-- The same coin, already collected. -/
def wItemC : Item := { wItem with collected := true }

def uid10 : String := "u1"

def sid10 : String := "s9"

/-- A living server runner with recorded distance 3. -/
def pPos : PlayerState :=
  { id := "u1", username := "u1", x := 300, y := 0, vx := 0, vy := 0,
    isGrounded := true, isJumping := false, alive := true, distance := 3,
    credits := 0, themeId := "white" }

/-- A session holding pPos. -/
def sPos : Session :=
  { id := "s9", players := [pPos], status := SessionStatus.live, startTime := 0 }

/-- A registry mapping uid10 into sPos. -/
def mPos : SessionManagerState :=
  { sessions := [sPos], playerSessionMap := [(uid10, sid10)] }

/-- A position report placing uid10 at x = 500 (5 scored meters). -/
def dPos : PositionData :=
  { x := 500, y := 10, vx := 1, vy := 2, isGrounded := false }

/-! ## Projection lemmas for the physics pipeline -/

lemma dashCooldownStep_vy (tf : ℚ) (p : Player) :
    (dashCooldownStep tf p).vy = p.vy := by
  dsimp only [dashCooldownStep]; split <;> rfl

lemma jumpHoldStep_dashCooldown (b : Bool) (tf : ℚ) (p : Player) :
    (jumpHoldStep b tf p).dashCooldown = p.dashCooldown := by
  dsimp only [jumpHoldStep]; split <;> rfl

lemma jumpHoldStep_vy_false (tf : ℚ) (p : Player) :
    (jumpHoldStep false tf p).vy = p.vy := by
  dsimp only [jumpHoldStep]; simp

lemma gravityStep_dashCooldown (tf : ℚ) (p : Player) :
    (gravityStep tf p).dashCooldown = p.dashCooldown := by
  dsimp only [gravityStep]; split <;> rfl

lemma gravityStep_vy (tf : ℚ) (p : Player) :
    (gravityStep tf p).vy = min maxFallSpeed (p.vy + GRAVITY * tf) := by
  dsimp only [gravityStep]; split
  · next h => exact (min_eq_left (le_of_lt h)).symm
  · next h => exact (min_eq_right (not_lt.mp h)).symm

lemma integrateStep_dashCooldown (c tf : ℚ) (p : Player) :
    (integrateStep c tf p).dashCooldown = p.dashCooldown := rfl

lemma integrateStep_vy (c tf : ℚ) (p : Player) :
    (integrateStep c tf p).vy = p.vy := rfl

lemma updateTrail_dashCooldown (p : Player) :
    (updateTrail p).dashCooldown = p.dashCooldown := by
  dsimp only [updateTrail]; split <;> rfl

lemma updateTrail_vy (p : Player) : (updateTrail p).vy = p.vy := by
  dsimp only [updateTrail]; split <;> rfl

lemma landPlayer_dashCooldown (p : Player) (pf : Platform) (now : ℚ) :
    (landPlayer p pf now).dashCooldown = p.dashCooldown := rfl

lemma prePhysics_dashCooldown (bs sm : ℚ) (b : Bool) (tf : ℚ) (p : Player) :
    (prePhysics bs sm b tf p).dashCooldown = (dashCooldownStep tf p).dashCooldown := by
  dsimp only [prePhysics]
  rw [updateTrail_dashCooldown, integrateStep_dashCooldown,
    gravityStep_dashCooldown, jumpHoldStep_dashCooldown]

lemma prePhysics_vy_false (bs sm tf : ℚ) (p : Player) :
    (prePhysics bs sm false tf p).vy = min maxFallSpeed (p.vy + GRAVITY * tf) := by
  dsimp only [prePhysics]
  rw [updateTrail_vy, integrateStep_vy, gravityStep_vy, jumpHoldStep_vy_false,
    dashCooldownStep_vy]

lemma stepPlayer_dashCooldown (pls : List Platform) (bs sm : ℚ) (hold : Bool)
    (tf now : ℚ) (p : Player) :
    (stepPlayer pls bs sm hold tf now p).dashCooldown =
      (dashCooldownStep tf p).dashCooldown := by
  dsimp only [stepPlayer, updatePlayer]
  cases h : landingCheck p (prePhysics bs sm hold tf p) tf pls
  · dsimp only
    exact prePhysics_dashCooldown bs sm hold tf p
  · dsimp only
    rw [landPlayer_dashCooldown]
    exact prePhysics_dashCooldown bs sm hold tf p

lemma stepPlayer_vy_empty (bs sm tf now : ℚ) (p : Player) :
    (stepPlayer [] bs sm false tf now p).vy =
      min maxFallSpeed (p.vy + GRAVITY * tf) := by
  dsimp only [stepPlayer, updatePlayer, landingCheck]
  exact prePhysics_vy_false bs sm tf p

/-- With timeFactor 1, a natural-number cooldown counts down through the
naturals, reaching and staying at 0 (truncated subtraction). -/
lemma iter_dashCooldown_nat (pls : List Platform) (bs sm : ℚ) (hold : Bool)
    (now : ℚ) :
    ∀ (k m : ℕ) (q : Player), q.dashCooldown = (m : ℚ) →
      (iterPlayer pls bs sm hold 1 now k q).dashCooldown = ((m - k : ℕ) : ℚ) := by
  intro k
  induction k with
  | zero => intro m q hq; simpa [iterPlayer] using hq
  | succ k ih =>
    intro m q hq
    show (iterPlayer pls bs sm hold 1 now k (stepPlayer pls bs sm hold 1 now q)).dashCooldown = _
    match m with
    | 0 =>
      have hstep : (stepPlayer pls bs sm hold 1 now q).dashCooldown = (0 : ℚ) := by
        rw [stepPlayer_dashCooldown]
        dsimp only [dashCooldownStep]
        rw [if_neg (by rw [hq]; norm_num)]
        simpa using hq
      rw [ih 0 _ hstep]
      simp
    | m + 1 =>
      have hpos : (0 : ℚ) < q.dashCooldown := by
        rw [hq]; exact_mod_cast Nat.succ_pos m
      have hstep : (stepPlayer pls bs sm hold 1 now q).dashCooldown = (m : ℚ) := by
        rw [stepPlayer_dashCooldown]
        dsimp only [dashCooldownStep]
        rw [if_pos hpos, hq]
        push_cast
        ring
      rw [ih m _ hstep]
      congr 1
      omega

/-! ## Claim C1 -/

/-- Claim C1, as amended: a dash request at positive cooldown leaves the
runner unchanged; at cooldown 0 it sets the dashing flag and the full
60-frame cooldown; each update step subtracts timeFactor from a positive
cooldown and leaves a non-positive cooldown unchanged (the source has no
floor at 0); with the client's default timeFactor = 1 the cooldown after k
steps is the natural number 60 - k, hence decreases monotonically to
exactly 0 and is never negative. -/
theorem claim_C1 (p : Player) (pls : List Platform) (bs sm : ℚ) (hold : Bool)
    (tf now : ℚ) :
    (0 < p.dashCooldown → handleDash true p = p)
  ∧ (p.dashCooldown = 0 →
       (handleDash true p).isDashing = true ∧
       (handleDash true p).dashCooldown = DASH_COOLDOWN)
  ∧ (0 < p.dashCooldown →
       (stepPlayer pls bs sm hold tf now p).dashCooldown = p.dashCooldown - tf)
  ∧ (p.dashCooldown ≤ 0 →
       (stepPlayer pls bs sm hold tf now p).dashCooldown = p.dashCooldown)
  ∧ (p.dashCooldown = 0 → ∀ k : ℕ,
       0 ≤ (iterPlayer pls bs sm hold 1 now k (handleDash true p)).dashCooldown
     ∧ (iterPlayer pls bs sm hold 1 now k (handleDash true p)).dashCooldown =
         ((60 - k : ℕ) : ℚ)) := by
  refine ⟨?_, ?_, ?_, ?_, ?_⟩
  · intro h; simp [handleDash, h]
  · intro h; constructor <;> simp [handleDash, h]
  · intro h
    rw [stepPlayer_dashCooldown]
    dsimp only [dashCooldownStep]
    rw [if_pos h]
  · intro h
    rw [stepPlayer_dashCooldown]
    dsimp only [dashCooldownStep]
    rw [if_neg (not_lt.mpr h)]
  · intro h k
    have hdash : (handleDash true p).dashCooldown = ((60 : ℕ) : ℚ) := by
      simp [handleDash, h, DASH_COOLDOWN]
    have := iter_dashCooldown_nat pls bs sm hold now k 60 (handleDash true p) hdash
    rw [this]
    exact ⟨Nat.cast_nonneg _, rfl⟩

/-- Claim C1 counterexample: from a dash at cooldown 0, four update steps at
timeFactor 18 leave the cooldown at -12, strictly negative — the cooldown
is not floored at 0 and does not stop at exactly 0. -/
theorem claim_C1_counterexample :
    (iterPlayer [] 12 1 false 18 0 4 (handleDash true basePlayer)).dashCooldown < 0 := by
  norm_num [iterPlayer, stepPlayer, updatePlayer, prePhysics, dashCooldownStep,
    jumpHoldStep, gravityStep, integrateStep, updateTrail, landingCheck,
    handleDash, basePlayer, GRAVITY, maxFallSpeed, DASH_COOLDOWN, abs_of_nonneg]

/-- Witness for claim C1 at a concrete grounded runner: after the dash and
60 steps at timeFactor 1 the cooldown is exactly (60 - 60 : ℕ) = 0. -/
theorem claim_C1_witness :
    basePlayer.dashCooldown = 0
  ∧ (iterPlayer [] 12 1 false 1 0 60 (handleDash true basePlayer)).dashCooldown =
      ((60 - 60 : ℕ) : ℚ) :=
  ⟨rfl, ((claim_C1 basePlayer [] 12 1 false 1 0).2.2.2.2 rfl 60).2⟩

/-! ## Claim C3 -/

/-- Claim C3, as amended: the scenario lands only with initial vy = 5.2
(so that the previous-frame bottom 634 is within the velocity tolerance
620 + 6·1 + 8); then one advance call returns y = 620 - 40 = 580, vy = 0,
grounded, and the platform as landedSegment. -/
theorem claim_C3 :
    (updatePlayer { pC3 with vy := 26 / 5 } [plC3] 12 1 false 1 0).updatedPlayer.y = 580
  ∧ (updatePlayer { pC3 with vy := 26 / 5 } [plC3] 12 1 false 1 0).updatedPlayer.vy = 0
  ∧ (updatePlayer { pC3 with vy := 26 / 5 } [plC3] 12 1 false 1 0).updatedPlayer.isGrounded = true
  ∧ (updatePlayer { pC3 with vy := 26 / 5 } [plC3] 12 1 false 1 0).landedPlatform = some plC3 := by
  norm_num [updatePlayer, prePhysics, dashCooldownStep, jumpHoldStep, gravityStep,
    integrateStep, updateTrail, landingCheck, landPlayer, pC3, plC3, basePlayer,
    GRAVITY, maxFallSpeed, abs_of_nonneg]

/-- Claim C3 counterexample: with the claimed initial vy = 5, the
previous-frame bottom is 634 while the tolerance window ends at
620 + 5.8 + 8 = 633.8, so the landing test fails: the runner does not land
and ends the step at y = 599.8 with vy = 5.8, still airborne. -/
theorem claim_C3_counterexample :
    (updatePlayer pC3 [plC3] 12 1 false 1 0).updatedPlayer.isGrounded = false
  ∧ (updatePlayer pC3 [plC3] 12 1 false 1 0).landedPlatform = none
  ∧ (updatePlayer pC3 [plC3] 12 1 false 1 0).updatedPlayer.y = 2999 / 5
  ∧ (updatePlayer pC3 [plC3] 12 1 false 1 0).updatedPlayer.vy = 29 / 5 := by
  norm_num [updatePlayer, prePhysics, dashCooldownStep, jumpHoldStep, gravityStep,
    integrateStep, updateTrail, landingCheck, pC3, plC3, basePlayer,
    GRAVITY, maxFallSpeed, abs_of_nonneg]

/-! ## Claim C7 -/

/-- Claim C7: a grounded jumpDown yields vy = JUMP_FORCE, airborne,
jumpCount 1, canDoubleJump; an airborne jumpDown with canDoubleJump and
jumpCount below MAX_JUMPS yields vy = DOUBLE_JUMP_FORCE, jumpCount 2 and no
further double jump; a third jumpDown while still airborne changes
nothing. -/
theorem claim_C7 (p : Player) (hg : p.isGrounded = true) :
    handleJumpStart true p =
      { p with vy := JUMP_FORCE, isGrounded := false, isJumping := true,
               jumpHoldTimer := MAX_JUMP_FRAMES, jumpCount := 1,
               canDoubleJump := true }
  ∧ (∀ q : Player, q.isGrounded = false → q.canDoubleJump = true →
       q.jumpCount < MAX_JUMPS →
       handleJumpStart true q =
         { q with vy := DOUBLE_JUMP_FORCE, isJumping := true,
                  jumpHoldTimer := MAX_JUMP_FRAMES, jumpCount := 2,
                  canDoubleJump := false })
  ∧ handleJumpStart true (handleJumpStart true (handleJumpStart true p)) =
      handleJumpStart true (handleJumpStart true p) := by
  refine ⟨?_, ?_, ?_⟩
  · simp [handleJumpStart, hg]
  · intro q h1 h2 h3
    simp [handleJumpStart, h1, h2, h3]
  · simp [handleJumpStart, hg, MAX_JUMPS]

/-- Witness for claim C7 at the concrete grounded runner. -/
theorem claim_C7_witness :
    basePlayer.isGrounded = true
  ∧ handleJumpStart true basePlayer =
      { basePlayer with vy := JUMP_FORCE, isGrounded := false, isJumping := true,
                        jumpHoldTimer := MAX_JUMP_FRAMES, jumpCount := 1,
                        canDoubleJump := true } :=
  ⟨rfl, (claim_C7 basePlayer rfl).1⟩

/-! ## Claim C8 -/

/-- Closed form of the velocity sequence under gravity alone: after n+1
steps, vy is the fall-speed cap clamped sum. -/
lemma iter_vy_formula (bs sm now tf : ℚ) (htf : 0 < tf) :
    ∀ (n : ℕ) (p : Player),
      (iterPlayer [] bs sm false tf now (n + 1) p).vy =
        min maxFallSpeed (p.vy + GRAVITY * tf * ((n : ℚ) + 1)) := by
  intro n
  induction n with
  | zero =>
    intro p
    show (iterPlayer [] bs sm false tf now 0
        (stepPlayer [] bs sm false tf now p)).vy = _
    rw [show iterPlayer [] bs sm false tf now 0
        (stepPlayer [] bs sm false tf now p) =
        stepPlayer [] bs sm false tf now p from rfl]
    rw [stepPlayer_vy_empty]
    norm_num
  | succ n ih =>
    intro p
    show (iterPlayer [] bs sm false tf now (n + 1)
        (stepPlayer [] bs sm false tf now p)).vy = _
    rw [ih (stepPlayer [] bs sm false tf now p), stepPlayer_vy_empty]
    have hGp : (0 : ℚ) < GRAVITY := by norm_num [GRAVITY]
    have hG : 0 < GRAVITY * tf := mul_pos hGp htf
    have hstep : (0 : ℚ) ≤ GRAVITY * tf * ((n : ℚ) + 1) := by positivity
    rcases le_or_lt (p.vy + GRAVITY * tf) maxFallSpeed with hle | hlt
    · rw [min_eq_right hle]
      congr 1
      push_cast
      ring
    · rw [min_eq_left hlt.le]
      rw [min_eq_left (by linarith : maxFallSpeed ≤ maxFallSpeed + GRAVITY * tf * ((n : ℚ) + 1))]
      rw [min_eq_left (by push_cast; nlinarith :
        maxFallSpeed ≤ p.vy + GRAVITY * tf * (((n : ℕ) + 1 : ℕ) + 1 : ℚ))]

/-- Claim C8: for every positive timeFactor, integrating gravity alone (no
jump input, no platforms to land on) keeps vy at or below the fall-speed
cap 15 from the first step on, and vy reaches exactly 15 after finitely
many steps and stays there. -/
theorem claim_C8 (tf : ℚ) (htf : 0 < tf) (p : Player) (bs sm now : ℚ) :
    (∀ n : ℕ, 1 ≤ n → (iterPlayer [] bs sm false tf now n p).vy ≤ maxFallSpeed)
  ∧ (∃ N : ℕ, ∀ n : ℕ, N ≤ n →
       (iterPlayer [] bs sm false tf now n p).vy = maxFallSpeed) := by
  have hGp : (0 : ℚ) < GRAVITY := by norm_num [GRAVITY]
  have hG : 0 < GRAVITY * tf := mul_pos hGp htf
  constructor
  · intro n hn
    obtain ⟨m, rfl⟩ : ∃ m, n = m + 1 := ⟨n - 1, by omega⟩
    rw [iter_vy_formula bs sm now tf htf m p]
    exact min_le_left _ _
  · obtain ⟨N, hN⟩ := exists_nat_gt ((maxFallSpeed - p.vy) / (GRAVITY * tf))
    refine ⟨N + 1, ?_⟩
    intro n hn
    obtain ⟨m, rfl⟩ : ∃ m, n = m + 1 := ⟨n - 1, by omega⟩
    rw [iter_vy_formula bs sm now tf htf m p]
    have hmN : (N : ℚ) ≤ (m : ℚ) + 1 := by
      have hnat : N ≤ m + 1 := by omega
      exact_mod_cast hnat
    rw [div_lt_iff₀ hG] at hN
    have h2 : GRAVITY * tf * (N : ℚ) ≤ GRAVITY * tf * ((m : ℚ) + 1) :=
      mul_le_mul_of_nonneg_left hmN hG.le
    have hcomm : (N : ℚ) * (GRAVITY * tf) = GRAVITY * tf * (N : ℚ) := mul_comm _ _
    exact min_eq_left (by linarith)

/-- Witness for claim C8 at timeFactor 1 and the concrete runner. -/
theorem claim_C8_witness :
    (0 : ℚ) < 1
  ∧ (iterPlayer [] 12 1 false 1 0 1 basePlayer).vy ≤ maxFallSpeed :=
  ⟨by norm_num, (claim_C8 1 (by norm_num) basePlayer 12 1 0).1 1 le_rfl⟩

/-! ## Claim C5 -/

/-- What generatePlatformAt guarantees: placement at the requested startX,
the uniform width draw, and the lastSegment / fresh-id bookkeeping. -/
lemma generatePlatformAt_spec (g : GenState) (startX : ℚ) (rs : RandStream)
    (i : ℕ) :
    (generatePlatformAt g startX rs i).1.startX = startX
  ∧ (generatePlatformAt g startX rs i).1.width =
      MIN_WIDTH + rs.f i * (MAX_WIDTH - MIN_WIDTH)
  ∧ (generatePlatformAt g startX rs i).2.1.lastSegment =
      (generatePlatformAt g startX rs i).1
  ∧ (generatePlatformAt g startX rs i).1.id = g.nextId
  ∧ (generatePlatformAt g startX rs i).2.1.nextId = g.nextId + 1 := by
  dsimp only [generatePlatformAt]
  by_cases h1 : rs.f (i + 1) < 1 / 10
  · simp [h1]
  · by_cases h2 : rs.f (i + 1) < 4 / 10
    · simp [h1, h2]
    · simp [h1, h2]

/-- What generateGap guarantees, for a nonnegative stored difficulty: gap of
at least MIN_GAP past the previous segment's end, width within bounds. -/
lemma generateGap_spec (g : GenState) (rs : RandStream) (i : ℕ)
    (hd : 0 ≤ g.difficultyMultiplier) :
    lastEnd g + MIN_GAP ≤ (generateGap g rs i).1.startX
  ∧ MIN_WIDTH ≤ (generateGap g rs i).1.width
  ∧ (generateGap g rs i).1.width ≤ MAX_WIDTH
  ∧ (generateGap g rs i).2.1.lastSegment = (generateGap g rs i).1
  ∧ (generateGap g rs i).1.id = g.nextId
  ∧ (generateGap g rs i).2.1.nextId = g.nextId + 1 := by
  have heq : generateGap g rs i =
      generatePlatformAt g
        (g.lastSegment.startX + g.lastSegment.width +
          (MIN_GAP + rs.f i * (MAX_GAP - MIN_GAP) * g.difficultyMultiplier))
        rs (i + 1) := rfl
  rw [heq]
  obtain ⟨hsx, hw, hlast, hid, hnext⟩ :=
    generatePlatformAt_spec g
      (g.lastSegment.startX + g.lastSegment.width +
        (MIN_GAP + rs.f i * (MAX_GAP - MIN_GAP) * g.difficultyMultiplier))
      rs (i + 1)
  have hr0 : 0 ≤ rs.f i := rs.nonneg i
  have hw0 : 0 ≤ rs.f (i + 1) := rs.nonneg (i + 1)
  have hw1 : rs.f (i + 1) < 1 := rs.lt_one (i + 1)
  refine ⟨?_, ?_, ?_, hlast, hid, hnext⟩
  · rw [hsx]
    have hgap : 0 ≤ rs.f i * (MAX_GAP - MIN_GAP) * g.difficultyMultiplier := by
      have : (0 : ℚ) ≤ MAX_GAP - MIN_GAP := by norm_num [MIN_GAP, MAX_GAP]
      exact mul_nonneg (mul_nonneg hr0 this) hd
    unfold lastEnd
    linarith
  · rw [hw]
    have : 0 ≤ rs.f (i + 1) * (MAX_WIDTH - MIN_WIDTH) := by
      have h4 : (0 : ℚ) ≤ MAX_WIDTH - MIN_WIDTH := by norm_num [MIN_WIDTH, MAX_WIDTH]
      exact mul_nonneg hw0 h4
    linarith
  · rw [hw]
    have hlt : rs.f (i + 1) * (MAX_WIDTH - MIN_WIDTH) <
        1 * (MAX_WIDTH - MIN_WIDTH) := by
      have h4 : (0 : ℚ) < MAX_WIDTH - MIN_WIDTH := by norm_num [MIN_WIDTH, MAX_WIDTH]
      exact mul_lt_mul_of_pos_right hw1 h4
    have h5 : MIN_WIDTH + 1 * (MAX_WIDTH - MIN_WIDTH) = MAX_WIDTH := by ring
    linarith

/-- What generateNextSegment guarantees for any nonnegative difficulty:
both branches of the isGap draw delegate to generateGap with the stored
difficulty set to the argument. -/
lemma generateNextSegment_spec (g : GenState) (d : ℚ) (rs : RandStream)
    (i : ℕ) (hd : 0 ≤ d) :
    lastEnd g + MIN_GAP ≤ (generateNextSegment g d rs i).1.startX
  ∧ MIN_WIDTH ≤ (generateNextSegment g d rs i).1.width
  ∧ (generateNextSegment g d rs i).1.width ≤ MAX_WIDTH
  ∧ (generateNextSegment g d rs i).2.1.lastSegment = (generateNextSegment g d rs i).1
  ∧ (generateNextSegment g d rs i).1.id = g.nextId
  ∧ (generateNextSegment g d rs i).2.1.nextId = g.nextId + 1 := by
  have heq : generateNextSegment g d rs i =
      generateGap { g with difficultyMultiplier := d } rs (i + 1) := by
    dsimp only [generateNextSegment, generatePlatformSeg]
    rw [ite_self]
  rw [heq]
  exact generateGap_spec { g with difficultyMultiplier := d } rs (i + 1) hd

/-- Claim C5, as amended: for every previous segment and every NONNEGATIVE
difficultyMultiplier (the loop always passes at least 0.995), the server
generator returns, without any partiality, a segment placed strictly past
the previous segment's end and with width inside [MIN_WIDTH, MAX_WIDTH] =
[200, 600]; a negative multiplier can flip the gap's sign (see the
counterexample), so the unrestricted quantification of the claim fails. -/
theorem claim_C5 (g : GenState) (d : ℚ) (rs : RandStream) (i : ℕ)
    (hd : 0 ≤ d) :
    g.lastSegment.startX + g.lastSegment.width <
      (generateNextSegment g d rs i).1.startX
  ∧ MIN_WIDTH ≤ (generateNextSegment g d rs i).1.width
  ∧ (generateNextSegment g d rs i).1.width ≤ MAX_WIDTH := by
  obtain ⟨h1, h2, h3, _, _, _⟩ := generateNextSegment_spec g d rs i hd
  refine ⟨?_, h2, h3⟩
  have hmg : (0 : ℚ) < MIN_GAP := by norm_num [MIN_GAP]
  unfold lastEnd at h1
  linarith

/-- Claim C5 counterexample: at difficultyMultiplier -1 with a draw of 0.9,
the gap size is 150 - 180 = -30, so the new segment starts at 1420, before
the previous segment's end 1450: the gap is not strictly positive for every
multiplier value. -/
theorem claim_C5_counterexample :
    ¬ (initialGenState.lastSegment.startX + initialGenState.lastSegment.width <
       (generateNextSegment initialGenState (-1) rsNine 0).1.startX) := by
  norm_num [generateNextSegment, generatePlatformSeg, generateGap,
    generatePlatformAt, initialGenState, rsNine, MIN_GAP, MAX_GAP,
    MIN_WIDTH, MAX_WIDTH]

/-- Witness for claim C5 at difficulty 3 and the constant 1/2 stream. -/
theorem claim_C5_witness :
    (0 : ℚ) ≤ 3
  ∧ initialGenState.lastSegment.startX + initialGenState.lastSegment.width <
      (generateNextSegment initialGenState 3 rsHalf 0).1.startX :=
  ⟨by norm_num, (claim_C5 initialGenState 3 rsHalf 0 (by norm_num)).1⟩

/-! ## Claim C9 -/

lemma itemCollide_of_collected (pl : Player) (item : Item)
    (h : item.collected = true) : itemCollide pl item = ([], item) := by
  simp [itemCollide, h]

lemma itemCollide_first_overlap (pl : Player) (item : Item)
    (h : item.collected = false) (ho : itemOverlap pl item = true) :
    itemCollide pl item =
      ([{ type := EventKind.bonus, scoreDelta := 50 }],
       { item with collected := true }) := by
  cases htype : item.type
  simp [itemCollide, h, ho, htype]

lemma itemCollide_no_overlap (pl : Player) (item : Item)
    (h : item.collected = false) (ho : itemOverlap pl item = false) :
    itemCollide pl item = ([], item) := by
  simp [itemCollide, h, ho]

/-- A collected item survives any number of further calls untouched and
silent. -/
lemma runItem_of_collected :
    ∀ (pls : List Player) (item : Item), item.collected = true →
      runItem item pls = ([], item) := by
  intro pls
  induction pls with
  | nil => intro item h; rfl
  | cons pl rest ih =>
    intro item h
    simp [runItem, itemCollide_of_collected pl item h, ih item h]

/-- Across any sequence of calls, one item yields at most one event. -/
lemma runItem_length_le_one :
    ∀ (pls : List Player) (item : Item), (runItem item pls).1.length ≤ 1 := by
  intro pls
  induction pls with
  | nil => intro item; simp [runItem]
  | cons pl rest ih =>
    intro item
    cases hc : item.collected with
    | false =>
      cases ho : itemOverlap pl item with
      | false =>
        simp only [runItem, itemCollide_no_overlap pl item hc ho]
        simpa using ih item
      | true =>
        have h2 : ({ item with collected := true } : Item).collected = true := rfl
        simp [runItem, itemCollide_first_overlap pl item hc ho,
          runItem_of_collected rest _ h2]
    | true =>
      simp [runItem, itemCollide_of_collected pl item hc,
        runItem_of_collected rest item hc]

/-- collideItems processes each item independently through itemCollide. -/
lemma collideItems_factor (pl : Player) :
    ∀ items : List Item,
      (collideItems pl items).1 =
        (items.map fun it => (itemCollide pl it).1).flatten
    ∧ (collideItems pl items).2 = items.map fun it => (itemCollide pl it).2 := by
  intro items
  induction items with
  | nil => exact ⟨rfl, rfl⟩
  | cons it rest ih =>
    constructor
    · simp [collideItems, ih.1]
    · simp [collideItems, ih.2]

/-- checkItemCollisions processes each platform's items independently. -/
lemma checkItemCollisions_factor (pl : Player) :
    ∀ pfs : List Platform,
      (checkItemCollisions pl pfs).1 =
        (pfs.map fun pf => ((pf.items.map fun it => (itemCollide pl it).1)).flatten).flatten
    ∧ (checkItemCollisions pl pfs).2 =
        pfs.map fun pf =>
          { pf with items := pf.items.map fun it => (itemCollide pl it).2 } := by
  intro pfs
  induction pfs with
  | nil => exact ⟨rfl, rfl⟩
  | cons pf rest ih =>
    constructor
    · simp [checkItemCollisions, (collideItems_factor pl pf.items).1, ih.1]
    · simp [checkItemCollisions, (collideItems_factor pl pf.items).2, ih.2]

/-- Claim C9: an already-collected item is skipped with no event and no
change; a first overlap marks the item collected and emits exactly one
bonus event with the fixed +50 delta; across any sequence of calls an item
yields at most one event in total; and checkItemCollisions is exactly the
independent per-item application of itemCollide, so the per-item bound
carries over to whole collision-resolution calls. -/
theorem claim_C9 :
    (∀ (pl : Player) (item : Item), item.collected = true →
       itemCollide pl item = ([], item))
  ∧ (∀ (pl : Player) (item : Item), item.collected = false →
       itemOverlap pl item = true →
       itemCollide pl item =
         ([{ type := EventKind.bonus, scoreDelta := 50 }],
          { item with collected := true }))
  ∧ (∀ (item : Item) (pls : List Player), (runItem item pls).1.length ≤ 1)
  ∧ (∀ (pl : Player) (pfs : List Platform),
       (checkItemCollisions pl pfs).2 =
         pfs.map fun pf =>
           { pf with items := pf.items.map fun it => (itemCollide pl it).2 })
  ∧ (∀ (pl : Player) (pfs : List Platform),
       (checkItemCollisions pl pfs).1 =
         (pfs.map fun pf =>
           ((pf.items.map fun it => (itemCollide pl it).1)).flatten).flatten) := by
  refine ⟨?_, ?_, ?_, ?_, ?_⟩
  · exact itemCollide_of_collected
  · exact itemCollide_first_overlap
  · intro item pls; exact runItem_length_le_one pls item
  · intro pl pfs; exact (checkItemCollisions_factor pl pfs).2
  · intro pl pfs; exact (checkItemCollisions_factor pl pfs).1

/-- Witness for claim C9 on a concrete coin and runner. -/
theorem claim_C9_witness :
    wItemC.collected = true
  ∧ itemCollide wPlayer wItemC = ([], wItemC)
  ∧ (runItem wItem [wPlayer, wPlayer]).1.length ≤ 1 :=
  ⟨rfl, claim_C9.1 wPlayer wItemC rfl, claim_C9.2.2.1 wItem [wPlayer, wPlayer]⟩

/-! ## Claim C2 -/

/-- Claim C2, as amended: the tick turns alive off exactly when the runner
either falls below y = 800 or overlaps an obstacle on a nearby segment —
the obstacle branch is a second elimination condition beside the fall-out
check; a runner already not alive is skipped entirely (never revived, never
otherwise modified); live sessions apply this step to every player and
non-live sessions are untouched. -/
theorem claim_C2 :
    (∀ (segs : List TrackSegment) (p : PlayerState), p.alive = false →
       eliminationStep segs p = p)
  ∧ (∀ (segs : List TrackSegment) (p : PlayerState),
       ((eliminationStep segs p).alive = false ↔
         (p.alive = false ∨ 800 < p.y ∨ hitsObstacle segs p = true)))
  ∧ (∀ (segs : List TrackSegment) (s : Session), s.status = SessionStatus.live →
       (gameLoopUpdateSession segs s).players =
         s.players.map (eliminationStep segs))
  ∧ (∀ (segs : List TrackSegment) (s : Session), s.status ≠ SessionStatus.live →
       gameLoopUpdateSession segs s = s) := by
  refine ⟨?_, ?_, ?_, ?_⟩
  · intro segs p h
    simp [eliminationStep, h]
  · intro segs p
    cases ha : p.alive with
    | false => simp [eliminationStep, ha]
    | true =>
      by_cases hy : (800 : ℚ) < p.y
      · simp [eliminationStep, ha, hy]
      · cases hobs : hitsObstacle segs p with
        | false => simp [eliminationStep, ha, hy, hobs]
        | true => simp [eliminationStep, ha, hy, hobs]
  · intro segs s h
    simp [gameLoopUpdateSession, h]
  · intro segs s h
    simp [gameLoopUpdateSession, h]

/-- Claim C2 counterexample: a living runner at (100, 560) — far above the
fall-out threshold — is eliminated by the tick because it overlaps a static
obstacle, so fall-out is not the only alive-to-false transition. -/
theorem claim_C2_counterexample :
    pHit.alive = true
  ∧ ¬ (800 < pHit.y)
  ∧ (eliminationStep [segObs] pHit).alive = false
  ∧ (gameLoopUpdateSession [segObs] sHit).players = [{ pHit with alive := false }] := by
  refine ⟨rfl, by norm_num [pHit], ?_, ?_⟩
  · norm_num [eliminationStep, hitsObstacle, relevantSegments, obstacleHit,
      segObs, obsHit, pHit]
  · norm_num [gameLoopUpdateSession, sHit, eliminationStep, hitsObstacle,
      relevantSegments, obstacleHit, segObs, obsHit, pHit]

/-- Witness for claim C2 on the concrete obstacle session. -/
theorem claim_C2_witness :
    sHit.status = SessionStatus.live
  ∧ (gameLoopUpdateSession [segObs] sHit).players =
      sHit.players.map (eliminationStep [segObs]) :=
  ⟨rfl, claim_C2.2.2.1 [segObs] sHit rfl⟩

/-! ## Claim C4 -/

/-- replaceFirstSession skips a prefix free of the target id. -/
lemma replaceFirstSession_append_of_ne (sid : String) (t : Session) :
    ∀ (l l2 : List Session), (∀ s ∈ l, s.id ≠ sid) →
      replaceFirstSession sid t (l ++ l2) = l ++ replaceFirstSession sid t l2 := by
  intro l l2 h
  induction l with
  | nil => simp
  | cons a l ih =>
    have ha : a.id ≠ sid := h a (by simp)
    simp only [List.cons_append, replaceFirstSession, if_neg ha, List.append_eq]
    exact congrArg (fun xs => a :: xs) (ih fun s hs => h s (by simp [hs]))

/-- When every live session is full, the find? of findOrCreateSession finds
nothing. -/
lemma find?_none_of_full (m : SessionManagerState)
    (h : ∀ s ∈ m.sessions, s.status = SessionStatus.live → MAX_PLAYERS ≤ aliveCount s) :
    m.sessions.find? (fun s =>
      decide (s.status = SessionStatus.live ∧ aliveCount s < MAX_PLAYERS)) = none := by
  rw [List.find?_eq_none]
  intro s hs
  simp only [decide_eq_true_eq, not_and]
  intro hlive
  exact not_lt.mpr (h s hs hlive)

/-- Claim C4: join never targets a session whose living-runner count has
reached MAX_PLAYERS = 10 (the chosen session always has alive count below
capacity before the joiner is appended); when every existing live session
is at or above capacity, findOrCreateSession yields a brand-new live empty
session, the joiner is appended to it, and (when the fresh id is really
fresh) the registry gains exactly that one-player session. -/
theorem claim_C4 (m : SessionManagerState) (freshId : String) (now : ℚ)
    (socketId username : String) :
    aliveCount (findOrCreateSession m freshId now).1 < MAX_PLAYERS
  ∧ ((∀ s ∈ m.sessions, s.status = SessionStatus.live → MAX_PLAYERS ≤ aliveCount s) →
       (findOrCreateSession m freshId now).1 =
         { id := freshId, players := [], status := SessionStatus.live,
           startTime := now })
  ∧ (joinSession m socketId username freshId now).1.players =
      (findOrCreateSession m freshId now).1.players ++
        [newPlayerState socketId username]
  ∧ ((∀ s ∈ m.sessions, s.status = SessionStatus.live → MAX_PLAYERS ≤ aliveCount s) →
       (∀ s ∈ m.sessions, s.id ≠ freshId) →
       (joinSession m socketId username freshId now).2.2.sessions =
         m.sessions ++
           [{ id := freshId, players := [newPlayerState socketId username],
              status := SessionStatus.live, startTime := now }]) := by
  refine ⟨?_, ?_, ?_, ?_⟩
  · unfold findOrCreateSession
    cases hf : m.sessions.find? (fun s =>
        decide (s.status = SessionStatus.live ∧ aliveCount s < MAX_PLAYERS)) with
    | some s =>
      have hs := List.find?_some hf
      simp only [decide_eq_true_eq] at hs
      exact hs.2
    | none =>
      dsimp only [createSession]
      norm_num [aliveCount, MAX_PLAYERS]
  · intro h
    unfold findOrCreateSession
    rw [find?_none_of_full m h]
    rfl
  · rfl
  · intro h hfresh
    have hnone := find?_none_of_full m h
    unfold joinSession findOrCreateSession
    rw [hnone]
    dsimp only [createSession]
    rw [replaceFirstSession_append_of_ne freshId _ m.sessions _ hfresh]
    simp [replaceFirstSession]

/-- Witness for claim C4: a registry with one full session routes the next
joiner to a fresh empty session. -/
theorem claim_C4_witness :
    (∀ s ∈ mFull.sessions, s.status = SessionStatus.live → MAX_PLAYERS ≤ aliveCount s)
  ∧ (findOrCreateSession mFull freshId1 0).1 =
      { id := freshId1, players := [], status := SessionStatus.live,
        startTime := 0 } := by
  have h : ∀ s ∈ mFull.sessions, s.status = SessionStatus.live →
      MAX_PLAYERS ≤ aliveCount s := by decide
  exact ⟨h, (claim_C4 mFull freshId1 0 sock1 uname1).2.1 h⟩

/-! ## Claim C10 -/

lemma forall2_refl {α : Type} {R : α → α → Prop} (hR : ∀ a, R a a) :
    ∀ l : List α, List.Forall₂ R l l := by
  intro l
  induction l with
  | nil => exact List.Forall₂.nil
  | cons a l ih => exact List.Forall₂.cons (hR a) ih

lemma forall2_trans {α : Type} {R : α → α → Prop}
    (hR : ∀ a b c, R a b → R b c → R a c) :
    ∀ {l1 l2 l3 : List α}, List.Forall₂ R l1 l2 → List.Forall₂ R l2 l3 →
      List.Forall₂ R l1 l3 := by
  intro l1 l2 l3 h12
  induction h12 generalizing l3 with
  | nil =>
    intro h23
    cases h23
    exact List.Forall₂.nil
  | cons hab h ih =>
    intro h23
    cases h23 with
    | cons hbc h2 => exact List.Forall₂.cons (hR _ _ _ hab hbc) (ih h2)

lemma playerMono_refl (p : PlayerState) : PlayerMono p p := ⟨rfl, le_refl _⟩

lemma playerMono_trans (p q r : PlayerState) (h1 : PlayerMono p q)
    (h2 : PlayerMono q r) : PlayerMono p r :=
  ⟨h1.1.trans h2.1, h1.2.trans h2.2⟩

lemma sessionMono_refl (s : Session) : SessionMono s s :=
  ⟨rfl, forall2_refl playerMono_refl s.players⟩

lemma sessionMono_trans (s t u : Session) (h1 : SessionMono s t)
    (h2 : SessionMono t u) : SessionMono s u :=
  ⟨h1.1.trans h2.1, forall2_trans playerMono_trans h1.2 h2.2⟩

lemma managerMono_refl (m : SessionManagerState) : ManagerMono m m :=
  forall2_refl sessionMono_refl m.sessions

lemma managerMono_trans (m1 m2 m3 : SessionManagerState)
    (h1 : ManagerMono m1 m2) (h2 : ManagerMono m2 m3) : ManagerMono m1 m3 :=
  forall2_trans sessionMono_trans h1 h2

/-- Every player either stays identical or gains distance under
updateFirstAlive. -/
lemma updateFirstAlive_forall2 (sid : String) (d : PositionData) :
    ∀ players : List PlayerState,
      List.Forall₂ PlayerMono players (updateFirstAlive sid d players) := by
  intro players
  induction players with
  | nil => exact List.Forall₂.nil
  | cons p rest ih =>
    by_cases hid : p.id = sid
    · simp only [updateFirstAlive, if_pos hid]
      refine List.Forall₂.cons ?_ (forall2_refl playerMono_refl rest)
      by_cases ha : p.alive = true
      · simp only [if_pos ha]
        exact ⟨rfl, le_max_left _ _⟩
      · simp only [if_neg ha]
        exact playerMono_refl p
    · simp only [updateFirstAlive, if_neg hid]
      exact List.Forall₂.cons (playerMono_refl p) ih

lemma updateFirstAlive_of_none (sid : String) (d : PositionData) :
    ∀ players : List PlayerState,
      players.find? (fun p => decide (p.id = sid)) = none →
      updateFirstAlive sid d players = players := by
  intro players
  induction players with
  | nil => intro _; rfl
  | cons p rest ih =>
    intro h
    by_cases hid : p.id = sid
    · simp [List.find?, hid] at h
    · simp [List.find?, hid] at h
      simp only [updateFirstAlive, if_neg hid]
      rw [ih (List.find?_eq_none.mpr (by simpa using h))]

lemma updateFirstAlive_of_dead (sid : String) (d : PositionData) :
    ∀ (players : List PlayerState) (q : PlayerState),
      players.find? (fun p => decide (p.id = sid)) = some q →
      q.alive = false →
      updateFirstAlive sid d players = players := by
  intro players
  induction players with
  | nil => intro q h; cases h
  | cons p rest ih =>
    intro q h hq
    by_cases hid : p.id = sid
    · have hpq : p = q := by
        simp [List.find?, hid] at h
        exact h
      simp only [updateFirstAlive, if_pos hid]
      rw [if_neg (by rw [hpq, hq]; exact Bool.false_ne_true)]
    · simp [List.find?, hid] at h
      simp only [updateFirstAlive, if_neg hid]
      rw [ih q h hq]

lemma find?_updateFirstAlive_alive (sid : String) (d : PositionData) :
    ∀ (players : List PlayerState) (q : PlayerState),
      players.find? (fun p => decide (p.id = sid)) = some q →
      q.alive = true →
      (updateFirstAlive sid d players).find? (fun p => decide (p.id = sid)) =
        some (applyPosition q d) := by
  intro players
  induction players with
  | nil => intro q h; cases h
  | cons p rest ih =>
    intro q h hq
    by_cases hid : p.id = sid
    · have hpq : p = q := by
        simp [List.find?, hid] at h
        exact h
      subst hpq
      simp only [updateFirstAlive, if_pos hid, if_pos hq]
      have hid2 : (applyPosition p d).id = sid := hid
      simp [List.find?, hid2]
    · simp [List.find?, hid] at h
      simp only [updateFirstAlive, if_neg hid]
      simp [List.find?, hid]
      exact ih q h hq

lemma replaceFirstSession_self (sid : String) :
    ∀ (l : List Session) (s : Session),
      l.find? (fun x => decide (x.id = sid)) = some s →
      replaceFirstSession sid s l = l := by
  intro l
  induction l with
  | nil => intro s h; cases h
  | cons a rest ih =>
    intro s h
    by_cases hid : a.id = sid
    · have has : a = s := by
        simp [List.find?, hid] at h
        exact h
      subst has
      simp only [replaceFirstSession, if_pos hid]
    · simp [List.find?, hid] at h
      simp only [replaceFirstSession, if_neg hid]
      rw [ih s h]

lemma find?_replaceFirstSession (sid : String) (t : Session) (ht : t.id = sid) :
    ∀ (l : List Session) (s : Session),
      l.find? (fun x => decide (x.id = sid)) = some s →
      (replaceFirstSession sid t l).find? (fun x => decide (x.id = sid)) =
        some t := by
  intro l
  induction l with
  | nil => intro s h; cases h
  | cons a rest ih =>
    intro s h
    by_cases hid : a.id = sid
    · simp only [replaceFirstSession, if_pos hid]
      simp [List.find?, ht]
    · simp [List.find?, hid] at h
      simp only [replaceFirstSession, if_neg hid]
      simp [List.find?, hid]
      exact ih s h

lemma replaceFirstSession_forall2 (sid : String) (t : Session) :
    ∀ (l : List Session) (s : Session),
      l.find? (fun x => decide (x.id = sid)) = some s →
      SessionMono s t →
      List.Forall₂ SessionMono l (replaceFirstSession sid t l) := by
  intro l
  induction l with
  | nil => intro s h; cases h
  | cons a rest ih =>
    intro s h hst
    by_cases hid : a.id = sid
    · have has : a = s := by
        simp [List.find?, hid] at h
        exact h
      subst has
      simp only [replaceFirstSession, if_pos hid]
      exact List.Forall₂.cons hst (forall2_refl sessionMono_refl rest)
    · simp [List.find?, hid] at h
      simp only [replaceFirstSession, if_neg hid]
      exact List.Forall₂.cons (sessionMono_refl a) (ih s h hst)

/-- Decomposition of a successful getPlayerSession lookup. -/
lemma getPlayerSession_eq (m : SessionManagerState) (sid : String)
    (session : Session) (h : getPlayerSession m sid = some session) :
    ∃ sid2, lookupStr m.playerSessionMap sid = some sid2 ∧ session.id = sid2 ∧
      m.sessions.find? (fun x => decide (x.id = sid2)) = some session := by
  unfold getPlayerSession at h
  cases hl : lookupStr m.playerSessionMap sid with
  | none => rw [hl] at h; cases h
  | some sid2 =>
    rw [hl] at h
    unfold getSession at h
    have hid := List.find?_some h
    simp only [decide_eq_true_eq] at hid
    exact ⟨sid2, rfl, hid, h⟩

/-- One update_position call never decreases any recorded distance. -/
lemma updatePlayerPosition_mono (m : SessionManagerState) (sid : String)
    (d : PositionData) : ManagerMono m (updatePlayerPosition m sid d) := by
  unfold updatePlayerPosition
  cases hs : getPlayerSession m sid with
  | none => exact managerMono_refl m
  | some session =>
    obtain ⟨sid2, hl, hid, hfs⟩ := getPlayerSession_eq m sid session hs
    rw [← hid] at hfs
    exact replaceFirstSession_forall2 session.id _ m.sessions session hfs
      ⟨rfl, updateFirstAlive_forall2 sid d session.players⟩

lemma applyPositionUpdates_mono :
    ∀ (ds : List (String × PositionData)) (m : SessionManagerState),
      ManagerMono m (applyPositionUpdates m ds) := by
  intro ds
  induction ds with
  | nil => intro m; exact managerMono_refl m
  | cons hd tl ih =>
    intro m
    exact managerMono_trans _ _ _ (updatePlayerPosition_mono m hd.1 hd.2)
      (ih (updatePlayerPosition m hd.1 hd.2))

/-- Claim C10: update_position only ever raises a player's distance
(pointwise over the whole registry, hence over any sequence of calls: the
living target player's distance becomes max(previous, x/100)); when the
socket maps to no session, or its player is missing or not alive, the
registry is left completely unchanged; when the player is present and
alive, exactly the reported fields are written and the distance becomes the
maximum. -/
theorem claim_C10 (m : SessionManagerState) (sid : String) (d : PositionData) :
    ManagerMono m (updatePlayerPosition m sid d)
  ∧ (∀ ds : List (String × PositionData), ManagerMono m (applyPositionUpdates m ds))
  ∧ (findPlayerIn m sid = none → updatePlayerPosition m sid d = m)
  ∧ (∀ p : PlayerState, findPlayerIn m sid = some p → p.alive = false →
       updatePlayerPosition m sid d = m)
  ∧ (∀ p : PlayerState, findPlayerIn m sid = some p → p.alive = true →
       findPlayerIn (updatePlayerPosition m sid d) sid =
         some (applyPosition p d)) := by
  refine ⟨updatePlayerPosition_mono m sid d, fun ds => applyPositionUpdates_mono ds m,
    ?_, ?_, ?_⟩
  · intro h
    unfold updatePlayerPosition
    cases hs : getPlayerSession m sid with
    | none => rfl
    | some session =>
      have hfind : session.players.find? (fun p => decide (p.id = sid)) = none := by
        unfold findPlayerIn at h
        rw [hs] at h
        exact h
      obtain ⟨sid2, hl, hid, hfs⟩ := getPlayerSession_eq m sid session hs
      rw [← hid] at hfs
      dsimp only
      rw [updateFirstAlive_of_none sid d session.players hfind]
      have heta : ({ session with players := session.players } : Session) = session := rfl
      rw [heta, replaceFirstSession_self session.id m.sessions session hfs]
  · intro p hp ha
    unfold updatePlayerPosition
    cases hs : getPlayerSession m sid with
    | none => rfl
    | some session =>
      have hfind : session.players.find? (fun q => decide (q.id = sid)) = some p := by
        unfold findPlayerIn at hp
        rw [hs] at hp
        exact hp
      obtain ⟨sid2, hl, hid, hfs⟩ := getPlayerSession_eq m sid session hs
      rw [← hid] at hfs
      dsimp only
      rw [updateFirstAlive_of_dead sid d session.players p hfind ha]
      have heta : ({ session with players := session.players } : Session) = session := rfl
      rw [heta, replaceFirstSession_self session.id m.sessions session hfs]
  · intro p hp ha
    cases hs : getPlayerSession m sid with
    | none =>
      unfold findPlayerIn at hp
      rw [hs] at hp
      cases hp
    | some session =>
      have hfind : session.players.find? (fun q => decide (q.id = sid)) = some p := by
        unfold findPlayerIn at hp
        rw [hs] at hp
        exact hp
      obtain ⟨sid2, hl, hid, hfs⟩ := getPlayerSession_eq m sid session hs
      rw [← hid] at hfs
      have hgps2 : getPlayerSession (updatePlayerPosition m sid d) sid =
          some { session with players := updateFirstAlive sid d session.players } := by
        unfold updatePlayerPosition
        rw [hs]
        unfold getPlayerSession
        dsimp only
        rw [hl]
        unfold getSession
        dsimp only
        rw [← hid]
        exact find?_replaceFirstSession session.id
          { session with players := updateFirstAlive sid d session.players }
          rfl m.sessions session hfs
      unfold findPlayerIn
      rw [hgps2]
      dsimp only
      exact find?_updateFirstAlive_alive sid d session.players p hfind ha

/-- Witness for claim C10 on the concrete one-player registry. -/
theorem claim_C10_witness :
    findPlayerIn mPos uid10 = some pPos
  ∧ pPos.alive = true
  ∧ findPlayerIn (updatePlayerPosition mPos uid10 dPos) uid10 =
      some (applyPosition pPos dPos) := by
  have h1 : findPlayerIn mPos uid10 = some pPos := by decide
  exact ⟨h1, rfl, (claim_C10 mPos uid10 dPos).2.2.2.2 pPos h1 rfl⟩

/-! ## Claim C6 -/

lemma frontierOf_concat (l : List TrackSegment) (s : TrackSegment) :
    frontierOf (l ++ [s]) = s.startX + s.width := by
  unfold frontierOf
  rw [List.getLast?_concat]

/-- The while loop of generateTrackForSession satisfies GenLoopSpec whenever
the entry currentX is the stored frontier, does not exceed the generator's
own frontier, and is above -10000 (so the difficulty passed stays
nonnegative, keeping every gap at least MIN_GAP wide). -/
lemma genLoop_spec (rs : RandStream) (targetX : ℚ) :
    ∀ (fuel : ℕ) (g : GenState) (segs newSegs : List TrackSegment)
      (currentX : ℚ) (i : ℕ),
      currentX = frontierOf segs →
      currentX ≤ lastEnd g →
      (-10000 : ℚ) ≤ currentX →
      GenLoopSpec targetX g segs newSegs currentX fuel
        (genLoop g segs newSegs currentX targetX rs i fuel) := by
  intro fuel
  induction fuel with
  | zero =>
    intro g segs newSegs currentX i h1 h2 h3
    refine ⟨[], by simp [genLoop], by simp [genLoop], by simp, ?_, ?_, ?_⟩
    · simpa [genLoop] using h1
    · simp [genLoop]
    · intro hfuel
      simp only [genLoop]
      push_cast at hfuel
      linarith
  | succ fuel ih =>
    intro g segs newSegs currentX i h1 h2 h3
    by_cases hlt : currentX < targetX
    · have hd : (0 : ℚ) ≤ 1 + currentX / 10000 := by
        have h4 : (-1 : ℚ) ≤ currentX / 10000 := by
          rw [le_div_iff₀ (by norm_num : (0 : ℚ) < 10000)]
          linarith
        linarith
      obtain ⟨hgap, hwmin, hwmax, hlastEq, hid, hnext⟩ :=
        generateNextSegment_spec g (1 + currentX / 10000) rs i hd
      have hunfold : genLoop g segs newSegs currentX targetX rs i (fuel + 1) =
          genLoop (generateNextSegment g (1 + currentX / 10000) rs i).2.1
            (segs ++ [(generateNextSegment g (1 + currentX / 10000) rs i).1])
            (newSegs ++ [(generateNextSegment g (1 + currentX / 10000) rs i).1])
            ((generateNextSegment g (1 + currentX / 10000) rs i).1.startX +
              (generateNextSegment g (1 + currentX / 10000) rs i).1.width)
            targetX rs (generateNextSegment g (1 + currentX / 10000) rs i).2.2
            fuel := by
        simp only [genLoop, if_pos hlt]
      have hprog : currentX + 350 ≤
          (generateNextSegment g (1 + currentX / 10000) rs i).1.startX +
            (generateNextSegment g (1 + currentX / 10000) rs i).1.width := by
        have hmg : MIN_GAP = (150 : ℚ) := by norm_num [MIN_GAP]
        have hmw : MIN_WIDTH = (200 : ℚ) := by norm_num [MIN_WIDTH]
        rw [hmg] at hgap
        rw [hmw] at hwmin
        linarith
      have hlast2 :
          (generateNextSegment g (1 + currentX / 10000) rs i).1.startX +
            (generateNextSegment g (1 + currentX / 10000) rs i).1.width =
          lastEnd (generateNextSegment g (1 + currentX / 10000) rs i).2.1 := by
        unfold lastEnd
        rw [hlastEq]
      obtain ⟨delta2, hsegs2, hnew2, hids2, hcur2, hle2, hfuel2⟩ :=
        ih (generateNextSegment g (1 + currentX / 10000) rs i).2.1
          (segs ++ [(generateNextSegment g (1 + currentX / 10000) rs i).1])
          (newSegs ++ [(generateNextSegment g (1 + currentX / 10000) rs i).1])
          ((generateNextSegment g (1 + currentX / 10000) rs i).1.startX +
            (generateNextSegment g (1 + currentX / 10000) rs i).1.width)
          (generateNextSegment g (1 + currentX / 10000) rs i).2.2
          (frontierOf_concat segs _).symm
          (le_of_eq hlast2)
          (by linarith)
      rw [hunfold]
      refine ⟨(generateNextSegment g (1 + currentX / 10000) rs i).1 :: delta2,
        ?_, ?_, ?_, ?_, ?_, ?_⟩
      · rw [hsegs2]
        simp
      · rw [hnew2]
        simp
      · intro s hs
        rcases List.mem_cons.mp hs with hsa | hsb
        · rw [hsa, hid]
        · have := hids2 s hsb
          omega
      · exact hcur2
      · linarith
      · intro hfb
        apply hfuel2
        push_cast at hfb ⊢
        linarith
    · refine ⟨[], ?_, ?_, by simp, ?_, ?_, ?_⟩
      · simp [genLoop, if_neg hlt]
      · simp [genLoop, if_neg hlt]
      · simp only [genLoop, if_neg hlt]
        simpa using h1
      · simp [genLoop, if_neg hlt]
      · intro _
        simp only [genLoop, if_neg hlt]
        exact not_lt.mp hlt

/-- Claim C6: one generateTrackForSession call (with any fuel covering the
required extension — each iteration advances the frontier by at least
MIN_GAP + MIN_WIDTH = 350) extends the stored segment list in place until
its frontier reaches at least maxDistance·100 + 2000, returns exactly the
newly created segments in creation order, never returns a previously
stored segment, and the tick emits the track_update message exactly when
that list is nonempty, with exactly that list as payload. -/
theorem claim_C6 (genOpt : Option GenState) (storedSegs : List TrackSegment)
    (maxDistance : ℚ) (rs : RandStream) (i fuel : ℕ)
    (hLE : frontierOf storedSegs ≤ lastEnd (genOpt.getD initialGenState))
    (hLow : (-10000 : ℚ) ≤ frontierOf storedSegs)
    (hIds : ∀ s ∈ storedSegs, s.id < (genOpt.getD initialGenState).nextId)
    (hFuel : maxDistance * 100 + 2000 - frontierOf storedSegs ≤ 350 * fuel) :
    (generateTrackForSession genOpt storedSegs maxDistance rs i fuel).storedSegments =
      storedSegs ++
        (generateTrackForSession genOpt storedSegs maxDistance rs i fuel).newSegments
  ∧ maxDistance * 100 + 2000 ≤
      frontierOf (generateTrackForSession genOpt storedSegs maxDistance rs i fuel).storedSegments
  ∧ (∀ s ∈ (generateTrackForSession genOpt storedSegs maxDistance rs i fuel).newSegments,
       s ∉ storedSegs)
  ∧ (emitTrackUpdate
       (generateTrackForSession genOpt storedSegs maxDistance rs i fuel).newSegments = none ↔
       (generateTrackForSession genOpt storedSegs maxDistance rs i fuel).newSegments = [])
  ∧ (∀ l, emitTrackUpdate
       (generateTrackForSession genOpt storedSegs maxDistance rs i fuel).newSegments = some l →
       l = (generateTrackForSession genOpt storedSegs maxDistance rs i fuel).newSegments) := by
  obtain ⟨delta, hsegs, hnew, hids, hcur, hle, hfuel⟩ :=
    genLoop_spec rs (maxDistance * 100 + 2000) fuel (genOpt.getD initialGenState)
      storedSegs [] (frontierOf storedSegs) i rfl hLE hLow
  have e1 : (generateTrackForSession genOpt storedSegs maxDistance rs i fuel).storedSegments =
      (genLoop (genOpt.getD initialGenState) storedSegs [] (frontierOf storedSegs)
        (maxDistance * 100 + 2000) rs i fuel).segments := rfl
  have e2 : (generateTrackForSession genOpt storedSegs maxDistance rs i fuel).newSegments =
      (genLoop (genOpt.getD initialGenState) storedSegs [] (frontierOf storedSegs)
        (maxDistance * 100 + 2000) rs i fuel).newSegments := rfl
  have hnewd : (generateTrackForSession genOpt storedSegs maxDistance rs i fuel).newSegments =
      delta := by
    rw [e2, hnew]
    simp
  refine ⟨?_, ?_, ?_, ?_, ?_⟩
  · rw [e1, hsegs, hnewd]
  · rw [e1, ← hcur]
    exact hfuel hFuel
  · intro s hs hmem
    rw [hnewd] at hs
    have h1 := hids s hs
    have h2 := hIds s hmem
    omega
  · cases hn : (generateTrackForSession genOpt storedSegs maxDistance rs i fuel).newSegments with
    | nil => simp [emitTrackUpdate]
    | cons a t => simp [emitTrackUpdate]
  · intro l hl
    unfold emitTrackUpdate at hl
    by_cases hz :
        (generateTrackForSession genOpt storedSegs maxDistance rs i fuel).newSegments.length > 0
    · rw [if_pos hz] at hl
      exact (Option.some_inj.mp hl).symm
    · rw [if_neg hz] at hl
      cases hl

/-- Witness for claim C6: an empty session state with leader distance 0 and
the constant 1/2 stream; fuel 6 covers (2000 - (-50)) / 350. -/
theorem claim_C6_witness :
    frontierOf [] ≤ lastEnd (Option.getD none initialGenState)
  ∧ (0 : ℚ) * 100 + 2000 ≤
      frontierOf (generateTrackForSession none [] 0 rsHalf 0 6).storedSegments := by
  have hLE : frontierOf ([] : List TrackSegment) ≤
      lastEnd (Option.getD none initialGenState) := by
    norm_num [frontierOf, lastEnd, initialGenState]
  exact ⟨hLE,
    (claim_C6 none [] 0 rsHalf 0 6 hLE
      (by norm_num [frontierOf])
      (by simp)
      (by norm_num [frontierOf])).2.1⟩

end BounceRunner
